import Mathlib

/-!
Shallow embedding of the bluelinky Australia vehicle module
(`src/vehicles/australia.vehicle.ts`) together with the parts of
`src/util.ts` and `src/constants.ts` it imports (those two files are not
part of the sources; where a claim depends on them they are modelled from
the specification and marked as such).

Vendor payloads are JavaScript objects traversed with optional chaining;
we model every possibly-absent field as an `Option`.  A JavaScript
`undefined` is `none`.  Implicit runtime failures (property access or
indexing on `undefined`) are modelled by `Except` with the `typeError`
error; the explicit `throw new Error('missing vehicle state …')` of the
CCS2 parser is the `malformedPayload` error of the spec's taxonomy.
-/

namespace Bluelinky

/-- Errors a normalization can raise.  `typeError` models an implicit
JavaScript `TypeError` (property access / index on `undefined`);
`malformedPayload` models the explicit
`throw new Error('missing vehicle state in vehicle status response')`. -/
inductive JSError where
  | typeError
  | malformedPayload
deriving DecidableEq, Inhabited

/-- JavaScript truthiness of a possibly-absent number:
`undefined` and `0` are falsy, every other number is truthy. -/
def jsTruthyInt : Option Int → Bool
  | none => false
  | some v => v != 0

/-- JavaScript truthiness of a possibly-absent natural number
(used for `Boolean(date.day)`). -/
def jsTruthyNat : Option Nat → Bool
  | none => false
  | some v => v != 0

/-- JavaScript truthiness of a possibly-absent string:
`undefined` and the empty string are falsy. -/
def jsTruthyStr : Option String → Bool
  | none => false
  | some s => !s.isEmpty

/-- Template-literal interpolation of a possibly-absent string:
`undefined` prints as `"undefined"` inside a template literal. -/
def jsTemplate : Option String → String
  | none => "undefined"
  | some s => s

/-- Region identifiers.  The Australia vehicle module only ever uses
`REGIONS.AU`, which is therefore the only supported region here. -/
inductive REGIONS where
  | AU
deriving DecidableEq, Inhabited

/-- Modelled from the spec: the region temperature table of `src/util.ts`
(not part of the sources).  Keyed by region identifier, it maps a vendor
temperature code (the list index) to a Celsius setpoint; per the spec it
uses a locale-specific offset/step encoding and must be bijective within
its domain.  For AU we model codes `0..16` encoding `14 °C .. 30 °C` in
1-degree steps (strictly increasing, hence duplicate-free). -/
def regionTempTable : REGIONS → List Int
  | REGIONS.AU => (List.range 17).map (fun k => 14 + (k : Int))

/-- Modelled from the spec: `tempCodeToCelsius` of `src/util.ts`.
Decodes a possibly-absent vendor temperature code through the region
table; an absent or out-of-table code decodes to `undefined`. -/
def tempCodeToCelsius (r : REGIONS) (code : Option Nat) : Option Int :=
  code.bind (fun c => (regionTempTable r)[c]?)

/-- Modelled from the spec: `celciusToTempCode` of `src/util.ts` (the
inverse direction, used for outbound commands).  Finds the vendor code
whose table entry is the requested Celsius value. -/
def celciusToTempCode (r : REGIONS) (celsius : Int) : Option Nat :=
  (regionTempTable r).findIdx? (fun t => t == celsius)

/-- Modelled from the spec: `parseDate` of `src/util.ts` (not part of the
sources).  The spec only requires that trip timestamps are parsed from
vendor date strings; we model it as an injective numeric encoding of the
string into a millisecond-epoch-like integer. -/
def parseDate (s : String) : Int :=
  s.foldl (fun a c => a * 1114112 + (c.toNat : Int)) 1

/-- Modelled from the spec: `addMinutes` of `src/util.ts`: adds a number
of minutes to a millisecond-epoch timestamp. -/
def addMinutes (d : Int) (minutes : Int) : Int :=
  d + minutes * 60000

/-- Modelled from the spec: `POSSIBLE_CHARGE_LIMIT_VALUES` of
`src/constants.ts` (not part of the sources); the spec gives the allowed
state-of-charge checkpoints as `{50,60,70,80,90,100}`. -/
def POSSIBLE_CHARGE_LIMIT_VALUES : List Nat := [50, 60, 70, 80, 90, 100]

/-- `EVPlugTypes.UNPLUGED` of `src/interfaces/common.interfaces.ts`
(not part of the sources): the default plug state. -/
def EVPlugTypes_UNPLUGED : Int := 0

/-! ## Canonical vehicle status (output model) -/

structure TirePressureWarningLamp where
  rearLeft : Bool
  frontLeft : Bool
  frontRight : Bool
  rearRight : Bool
  all : Bool
deriving DecidableEq, Inhabited

structure OpenDoors where
  frontRight : Bool
  frontLeft : Bool
  backLeft : Bool
  backRight : Bool
deriving DecidableEq, Inhabited

structure ChassisStatus where
  hoodOpen : Option Bool
  trunkOpen : Option Bool
  locked : Option Bool
  openDoors : OpenDoors
  tirePressureWarningLamp : TirePressureWarningLamp
deriving DecidableEq, Inhabited

structure ClimateStatus where
  active : Option Bool
  steeringwheelHeat : Bool
  sideMirrorHeat : Bool
  rearWindowHeat : Bool
  defrost : Option Bool
  temperatureSetpoint : Option Int
  temperatureUnit : Option Int
deriving DecidableEq, Inhabited

structure EngineStatus where
  ignition : Option Bool
  accessory : Option Bool
  range : Option Int
  rangeEV : Option Int
  rangeGas : Option Int
  plugedTo : Int
  charging : Option Bool
  estimatedCurrentChargeDuration : Option Int
  estimatedFastChargeDuration : Option Int
  estimatedPortableChargeDuration : Option Int
  estimatedStationChargeDuration : Option Int
  batteryCharge12v : Option Int
  batteryChargeHV : Option Int
deriving DecidableEq, Inhabited

structure VehicleStatus where
  chassis : ChassisStatus
  climate : ClimateStatus
  engine : EngineStatus
  lastupdate : Option Int
deriving DecidableEq, Inhabited

/-! ## Legacy (non-CCS2) raw payload and its parser -/

structure RawValue where
  value : Option Int
deriving DecidableEq, Inhabited

structure RawRangeByFuel where
  gasModeRange : Option RawValue
  totalAvailableRange : Option RawValue
  evModeRange : Option RawValue
deriving DecidableEq, Inhabited

structure RawDrvDistanceEntry where
  rangeByFuel : Option RawRangeByFuel
deriving DecidableEq, Inhabited

structure RawRemainTime2 where
  atc : Option RawValue
  etc1 : Option RawValue
  etc2 : Option RawValue
  etc3 : Option RawValue
deriving DecidableEq, Inhabited

structure RawEvStatus where
  drvDistance : Option (List RawDrvDistanceEntry)
  batteryPlugin : Option Int
  batteryCharge : Option Bool
  remainTime2 : Option RawRemainTime2
  batteryStatus : Option Int
deriving DecidableEq, Inhabited

structure RawTirePressureLamp where
  tirePressureLampRL : Option Int
  tirePressureLampFL : Option Int
  tirePressureLampFR : Option Int
  tirePressureLampRR : Option Int
  tirePressureWarningLampAll : Option Int
deriving DecidableEq, Inhabited

structure RawDoorOpen where
  frontRight : Option Int
  frontLeft : Option Int
  backLeft : Option Int
  backRight : Option Int
deriving DecidableEq, Inhabited

structure RawAirTemp where
  value : Option Nat
  unit : Option Int
deriving DecidableEq, Inhabited

structure RawBattery where
  batSoc : Option Int
deriving DecidableEq, Inhabited

structure LegacyBody where
  hoodOpen : Option Bool
  trunkOpen : Option Bool
  doorLock : Option Bool
  doorOpen : Option RawDoorOpen
  tirePressureLamp : Option RawTirePressureLamp
  airCtrlOn : Option Bool
  steerWheelHeat : Option Int
  sideBackWindowHeat : Option Int
  defrost : Option Bool
  airTemp : Option RawAirTemp
  engine : Option Bool
  acc : Option Bool
  evStatus : Option RawEvStatus
  dte : Option RawValue
  battery : Option RawBattery
  time : Option String
deriving DecidableEq, Inhabited

/-- The optional chain
`body.evStatus?.drvDistance[0]?.rangeByFuel?.<sel>?.value` on a
non-throwing path (`drvDistance[0]` of an empty array is `undefined`,
guarded by the following `?.`). -/
def rangeByFuelField (b : LegacyBody) (sel : RawRangeByFuel → Option RawValue) :
    Option Int :=
  ((((b.evStatus.bind (·.drvDistance)).bind List.head?).bind
    (·.rangeByFuel)).bind sel).bind (·.value)

/-- The body of the object literal returned by
`AustraliaVehicle.parseVehicleStatus`, field for field. -/
def legacyStatus (b : LegacyBody) : VehicleStatus :=
  { chassis :=
      { hoodOpen := b.hoodOpen
        trunkOpen := b.trunkOpen
        locked := b.doorLock
        openDoors :=
          { frontRight := jsTruthyInt (b.doorOpen.bind (·.frontRight))
            frontLeft := jsTruthyInt (b.doorOpen.bind (·.frontLeft))
            backLeft := jsTruthyInt (b.doorOpen.bind (·.backLeft))
            backRight := jsTruthyInt (b.doorOpen.bind (·.backRight)) }
        tirePressureWarningLamp :=
          { rearLeft := jsTruthyInt (b.tirePressureLamp.bind (·.tirePressureLampRL))
            frontLeft := jsTruthyInt (b.tirePressureLamp.bind (·.tirePressureLampFL))
            frontRight := jsTruthyInt (b.tirePressureLamp.bind (·.tirePressureLampFR))
            rearRight := jsTruthyInt (b.tirePressureLamp.bind (·.tirePressureLampRR))
            all := jsTruthyInt (b.tirePressureLamp.bind (·.tirePressureWarningLampAll)) } }
    climate :=
      { active := b.airCtrlOn
        steeringwheelHeat := jsTruthyInt b.steerWheelHeat
        sideMirrorHeat := false
        rearWindowHeat := jsTruthyInt b.sideBackWindowHeat
        defrost := b.defrost
        temperatureSetpoint := tempCodeToCelsius REGIONS.AU (b.airTemp.bind (·.value))
        temperatureUnit := b.airTemp.bind (·.unit) }
    engine :=
      { ignition := b.engine
        accessory := b.acc
        rangeGas :=
          match rangeByFuelField b (·.gasModeRange) with
          | some v => some v
          | none => b.dte.bind (·.value)
        range := rangeByFuelField b (·.totalAvailableRange)
        rangeEV := rangeByFuelField b (·.evModeRange)
        plugedTo := (b.evStatus.bind (·.batteryPlugin)).getD EVPlugTypes_UNPLUGED
        charging := b.evStatus.bind (·.batteryCharge)
        estimatedCurrentChargeDuration :=
          (((b.evStatus.bind (·.remainTime2)).bind (·.atc)).bind (·.value))
        estimatedFastChargeDuration :=
          (((b.evStatus.bind (·.remainTime2)).bind (·.etc1)).bind (·.value))
        estimatedPortableChargeDuration :=
          (((b.evStatus.bind (·.remainTime2)).bind (·.etc2)).bind (·.value))
        estimatedStationChargeDuration :=
          (((b.evStatus.bind (·.remainTime2)).bind (·.etc3)).bind (·.value))
        batteryCharge12v := b.battery.bind (·.batSoc)
        batteryChargeHV := b.evStatus.bind (·.batteryStatus) }
    lastupdate := if jsTruthyStr b.time then (b.time.map parseDate) else none }

/-- `AustraliaVehicle.parseVehicleStatus`.  The expression
`body.evStatus?.drvDistance[0]` indexes `drvDistance` without a guarding
`?.`: when `evStatus` is present but `drvDistance` is absent, JavaScript
evaluates `undefined[0]` and throws a `TypeError`. -/
def parseVehicleStatus (b : LegacyBody) : Except JSError VehicleStatus :=
  match b.evStatus with
  | some ev =>
    match ev.drvDistance with
    | none => Except.error JSError.typeError
    | some _ => Except.ok (legacyStatus b)
  | none => Except.ok (legacyStatus b)

/-! ## CCS2 raw payload and its parser -/

structure RawTire where
  PressureLow : Option Int
deriving DecidableEq, Inhabited

structure RawAxleSide where
  Tire : Option RawTire
deriving DecidableEq, Inhabited

structure RawAxleRow where
  Left : Option RawAxleSide
  Right : Option RawAxleSide
deriving DecidableEq, Inhabited

structure RawAxle where
  Row1 : Option RawAxleRow
  Row2 : Option RawAxleRow
  Tire : Option RawTire
deriving DecidableEq, Inhabited

structure RawChassis where
  Axle : Option RawAxle
deriving DecidableEq, Inhabited

structure RawDoorSide where
  Lock : Option Int
  Open : Option Int
deriving DecidableEq, Inhabited

structure RawDoorRow1 where
  Driver : Option RawDoorSide
  Passenger : Option RawDoorSide
deriving DecidableEq, Inhabited

structure RawDoorRow2 where
  Left : Option RawDoorSide
  Right : Option RawDoorSide
deriving DecidableEq, Inhabited

structure RawDoor where
  Row1 : Option RawDoorRow1
  Row2 : Option RawDoorRow2
deriving DecidableEq, Inhabited

structure RawBlower where
  SpeedLevel : Option Int
deriving DecidableEq, Inhabited

structure RawCabinTemperature where
  Value : Option Int
  Unit : Option Int
deriving DecidableEq, Inhabited

structure RawHvacDriver where
  Blower : Option RawBlower
  Temperature : Option RawCabinTemperature
deriving DecidableEq, Inhabited

structure RawHvacRow1 where
  Driver : Option RawHvacDriver
deriving DecidableEq, Inhabited

structure RawHvac where
  Row1 : Option RawHvacRow1
deriving DecidableEq, Inhabited

structure RawHeat where
  State : Option Int
deriving DecidableEq, Inhabited

structure RawSteeringWheel where
  Heat : Option RawHeat
deriving DecidableEq, Inhabited

structure RawCabin where
  Door : Option RawDoor
  HVAC : Option RawHvac
  SteeringWheel : Option RawSteeringWheel
deriving DecidableEq, Inhabited

structure RawOpenable where
  Open : Option Int
deriving DecidableEq, Inhabited

structure RawBodyState where
  Hood : Option RawOpenable
  Trunk : Option RawOpenable
deriving DecidableEq, Inhabited

structure RawDTE where
  Total : Option Int
deriving DecidableEq, Inhabited

structure RawFuelSystem where
  DTE : Option RawDTE
deriving DecidableEq, Inhabited

structure RawDrivetrain where
  FuelSystem : Option RawFuelSystem
deriving DecidableEq, Inhabited

structure RawPowerSupply where
  Accessory : Option Int
  Ignition1 : Option Int
deriving DecidableEq, Inhabited

structure RawElectronicsBattery where
  Level : Option Int
deriving DecidableEq, Inhabited

structure RawElectronics where
  PowerSupply : Option RawPowerSupply
  Battery : Option RawElectronicsBattery
deriving DecidableEq, Inhabited

structure RawConnectorFastening where
  State : Option Int
deriving DecidableEq, Inhabited

structure RawCharging where
  RemainTime : Option Int
deriving DecidableEq, Inhabited

structure RawEstimatedTime where
  Quick : Option Int
  Standard : Option Int
  ICCB : Option Int
deriving DecidableEq, Inhabited

structure RawChargingInformation where
  ConnectorFastening : Option RawConnectorFastening
  Charging : Option RawCharging
  EstimatedTime : Option RawEstimatedTime
deriving DecidableEq, Inhabited

/-- `Green.BatteryManagement.BatteryRemain`; the source field is named
`Ratio` (renamed here only because of a lexical restriction). -/
structure RawBatteryRemain where
  RatioValue : Option Int
deriving DecidableEq, Inhabited

structure RawBatteryManagement where
  BatteryRemain : Option RawBatteryRemain
deriving DecidableEq, Inhabited

structure RawGreen where
  ChargingInformation : Option RawChargingInformation
  BatteryManagement : Option RawBatteryManagement
deriving DecidableEq, Inhabited

structure RawVehicleState where
  Body : Option RawBodyState
  Cabin : Option RawCabin
  Chassis : Option RawChassis
  Drivetrain : Option RawDrivetrain
  Electronics : Option RawElectronics
  Green : Option RawGreen
deriving DecidableEq, Inhabited

structure RawCCS2State where
  Vehicle : Option RawVehicleState
deriving DecidableEq, Inhabited

structure CCS2Body where
  state : Option RawCCS2State
  lastUpdateTime : Option String
deriving DecidableEq, Inhabited

/-- The `chassis` part of the object literal returned by
`AustraliaVehicle.parseCCS2VehicleStatus` (`vehicleState`, `axle` and
`door` are the local bindings of the source), field for field. -/
def ccs2Chassis (vehicleState : RawVehicleState) (axle : RawAxle) (door : RawDoor) :
    ChassisStatus :=
  { hoodOpen := some (((vehicleState.Body.bind (·.Hood)).bind (·.Open)) == some 1)
    trunkOpen := some (((vehicleState.Body.bind (·.Trunk)).bind (·.Open)) == some 1)
    locked := some
      ((((door.Row1.bind (·.Driver)).bind (·.Lock)) == some 1) &&
       (((door.Row1.bind (·.Passenger)).bind (·.Lock)) == some 1) &&
       (((door.Row2.bind (·.Left)).bind (·.Lock)) == some 1) &&
       (((door.Row2.bind (·.Right)).bind (·.Lock)) == some 1))
    openDoors :=
      { frontRight := ((door.Row1.bind (·.Driver)).bind (·.Open)) == some 1
        frontLeft := ((door.Row1.bind (·.Passenger)).bind (·.Open)) == some 1
        backLeft := ((door.Row2.bind (·.Left)).bind (·.Open)) == some 1
        backRight := ((door.Row2.bind (·.Right)).bind (·.Open)) == some 1 }
    tirePressureWarningLamp :=
      { rearLeft := (((axle.Row2.bind (·.Left)).bind (·.Tire)).bind (·.PressureLow)) == some 1
        frontLeft := (((axle.Row1.bind (·.Left)).bind (·.Tire)).bind (·.PressureLow)) == some 1
        frontRight := (((axle.Row1.bind (·.Right)).bind (·.Tire)).bind (·.PressureLow)) == some 1
        rearRight := (((axle.Row2.bind (·.Right)).bind (·.Tire)).bind (·.PressureLow)) == some 1
        all := ((axle.Tire.bind (·.PressureLow)) == some 1) } }

/-- The `climate` part of the object literal returned by
`AustraliaVehicle.parseCCS2VehicleStatus`, field for field.
`active` is `Cabin?.HVAC?.Row1?.Driver?.Blower?.SpeedLevel !== 0`. -/
def ccs2Climate (vehicleState : RawVehicleState) : ClimateStatus :=
  { active := some
      (((((vehicleState.Cabin.bind (·.HVAC)).bind (·.Row1)).bind (·.Driver)).bind
          (·.Blower)).bind (·.SpeedLevel) != some 0)
    steeringwheelHeat :=
      (((vehicleState.Cabin.bind (·.SteeringWheel)).bind (·.Heat)).bind (·.State)) == some 1
    sideMirrorHeat := false
    rearWindowHeat := false
    defrost := some false
    temperatureSetpoint :=
      ((((vehicleState.Cabin.bind (·.HVAC)).bind (·.Row1)).bind (·.Driver)).bind
        (·.Temperature)).bind (·.Value)
    temperatureUnit :=
      ((((vehicleState.Cabin.bind (·.HVAC)).bind (·.Row1)).bind (·.Driver)).bind
        (·.Temperature)).bind (·.Unit) }

/-- The `engine` part of the object literal returned by
`AustraliaVehicle.parseCCS2VehicleStatus` (`charging` is the local
binding `vehicleState.Green?.ChargingInformation`), field for field. -/
def ccs2Engine (vehicleState : RawVehicleState)
    (charging : Option RawChargingInformation) : EngineStatus :=
  { accessory := some
      (((vehicleState.Electronics.bind (·.PowerSupply)).bind (·.Accessory)) == some 1)
    ignition := some
      (((vehicleState.Electronics.bind (·.PowerSupply)).bind (·.Ignition1)) == some 1)
    range := ((vehicleState.Drivetrain.bind (·.FuelSystem)).bind (·.DTE)).bind (·.Total)
    rangeEV := ((vehicleState.Drivetrain.bind (·.FuelSystem)).bind (·.DTE)).bind (·.Total)
    rangeGas := ((vehicleState.Drivetrain.bind (·.FuelSystem)).bind (·.DTE)).bind (·.Total)
    plugedTo :=
      match (charging.bind (·.ConnectorFastening)).bind (·.State) with
      | some v => if v != 0 then v else EVPlugTypes_UNPLUGED
      | none => EVPlugTypes_UNPLUGED
    charging := some
      (match (charging.bind (·.Charging)).bind (·.RemainTime) with
        | some t => t > 0
        | none => false)
    estimatedCurrentChargeDuration := (charging.bind (·.Charging)).bind (·.RemainTime)
    estimatedStationChargeDuration := (charging.bind (·.EstimatedTime)).bind (·.Quick)
    estimatedFastChargeDuration := (charging.bind (·.EstimatedTime)).bind (·.Standard)
    estimatedPortableChargeDuration := (charging.bind (·.EstimatedTime)).bind (·.ICCB)
    batteryCharge12v := (vehicleState.Electronics.bind (·.Battery)).bind (·.Level)
    batteryChargeHV :=
      ((vehicleState.Green.bind (·.BatteryManagement)).bind (·.BatteryRemain)).bind
        (·.RatioValue) }

/-- The object literal returned by
`AustraliaVehicle.parseCCS2VehicleStatus` once the structural guard has
passed, assembled from its three parts. -/
def ccs2Status (vehicleState : RawVehicleState) (axle : RawAxle) (door : RawDoor)
    (charging : Option RawChargingInformation) (lastUpdateTime : Option String) :
    VehicleStatus :=
  { chassis := ccs2Chassis vehicleState axle door
    climate := ccs2Climate vehicleState
    engine := ccs2Engine vehicleState charging
    lastupdate := lastUpdateTime.map parseDate }

/-- `AustraliaVehicle.parseCCS2VehicleStatus`.  The source computes
`vehicleState = body.state?.Vehicle` and then evaluates
`vehicleState.Chassis?.Axle` *before* the `!vehicleState` guard runs:
when `state.Vehicle` is absent, JavaScript throws a `TypeError` from the
`.Chassis` access, so the `!vehicleState` arm of the guard is
unreachable.  The reachable part of the guard,
`!axle || !door`, throws the explicit malformed-payload error. -/
def parseCCS2VehicleStatus (b : CCS2Body) : Except JSError VehicleStatus :=
  match b.state.bind (·.Vehicle) with
  | none => Except.error JSError.typeError
  | some vehicleState =>
    match vehicleState.Chassis.bind (·.Axle), vehicleState.Cabin.bind (·.Door) with
    | some axle, some door =>
      Except.ok
        (ccs2Status vehicleState axle door
          (vehicleState.Green.bind (·.ChargingInformation)) b.lastUpdateTime)
    | none, _ => Except.error JSError.malformedPayload
    | some _, none => Except.error JSError.malformedPayload

/-! ## `status()`: protocol dispatch and range post-processing -/

/-- A raw status payload tagged with the protocol that produced it
(`vehicleConfig.ccuCCS2ProtocolSupport` selects the branch in
`status()`). -/
inductive RawPayload where
  | legacy (b : LegacyBody)
  | ccs2 (b : CCS2Body)

/-- The protocol-specific mapping step of `status()`. -/
def parseStatus : RawPayload → Except JSError VehicleStatus
  | RawPayload.legacy b => parseVehicleStatus b
  | RawPayload.ccs2 b => parseCCS2VehicleStatus b

/-- The range-derivation post-processing of `status()`:
`if (!parsedStatus.engine.range) { if (rangeEV || rangeGas) { range =
(rangeEV ?? 0) + (rangeGas ?? 0) } }`. -/
def postProcessRange (s : VehicleStatus) : VehicleStatus :=
  if !jsTruthyInt s.engine.range then
    if jsTruthyInt s.engine.rangeEV || jsTruthyInt s.engine.rangeGas then
      { s with engine := { s.engine with
          range := some (s.engine.rangeEV.getD 0 + s.engine.rangeGas.getD 0) } }
    else s
  else s

/-- The parsed-status path of `status()`: protocol-specific mapping
followed by the range post-processing. -/
def normalizeStatus (p : RawPayload) : Except JSError VehicleStatus :=
  (parseStatus p).map postProcessRange

/-! ## Rate tracker -/

/-- The relevant response headers.  Header values are numeric strings on
the wire; a numeric string is non-empty and hence truthy, so the
source's truthiness test on `x-ratelimit-limit` is a presence test
here. -/
structure RateHeaders where
  xRatelimitLimit : Option Nat
  xRatelimitRemaining : Option Nat
  xRatelimitReset : Option Nat
deriving DecidableEq, Inhabited

/-- `AustraliaVehicle.serverRates`.  `max`/`current` are JavaScript
numbers; `none` models the `NaN` produced by `Number(undefined)`.
`reset` is a millisecond-epoch timestamp; `updatedAt` likewise. -/
structure RateState where
  max : Option Int
  current : Option Int
  reset : Option Int
  updatedAt : Option Int
deriving DecidableEq, Inhabited

/-- The initial `serverRates` value `{ max: -1, current: -1 }`. -/
def initialRateState : RateState :=
  { max := some (-1), current := some (-1), reset := none, updatedAt := none }

/-- `AustraliaVehicle.updateRates` (the state mutation; the source also
returns the response unchanged).  `now` is the clock reading taken by
`new Date()`; `Number(\x7b...reset\x7d000)` multiplies a Unix-seconds
header by 1000. -/
def updateRates (now : Int) (st : RateState) (h : RateHeaders) : RateState :=
  if h.xRatelimitLimit.isSome then
    { max := h.xRatelimitLimit.map (fun n => (n : Int))
      current := h.xRatelimitRemaining.map (fun n => (n : Int))
      reset :=
        match h.xRatelimitReset with
        | some r => some ((r : Int) * 1000)
        | none => st.reset
      updatedAt := some now }
  else st

/-! ## Charge-target validation -/

/-- `ManagedBluelinkyError` carrying its message. -/
inductive ControlError where
  | managed (msg : String)
deriving DecidableEq, Inhabited

inductive EVChargeModeTypes where
  | FAST
  | SLOW
deriving DecidableEq, Inhabited

structure ChargeTargetEntry where
  plugType : EVChargeModeTypes
  targetSOClevel : Nat
deriving DecidableEq, Inhabited

/-- The body of the single POST issued by `setChargeTargets`. -/
structure ChargePost where
  targetSOClist : List ChargeTargetEntry
deriving DecidableEq, Inhabited

/-- The error message of `setChargeTargets`, listing the allowed set. -/
def chargeLimitMessage : String :=
  "Charge target values are limited to " ++
    String.intercalate ", " (POSSIBLE_CHARGE_LIMIT_VALUES.map toString)

/-- `AustraliaVehicle.setChargeTargets`: the validation runs before the
POST, so on failure the returned command list is empty (nothing was
sent); on success one POST carrying both targets is issued. -/
def setChargeTargets (fast slow : Nat) : Except ControlError (List ChargePost) :=
  if !(POSSIBLE_CHARGE_LIMIT_VALUES.contains fast) ||
      !(POSSIBLE_CHARGE_LIMIT_VALUES.contains slow) then
    Except.error (ControlError.managed chargeLimitMessage)
  else
    Except.ok
      [{ targetSOClist :=
          [{ plugType := EVChargeModeTypes.FAST, targetSOClevel := fast },
           { plugType := EVChargeModeTypes.SLOW, targetSOClevel := slow }] }]

/-! ## Trip info -/

structure TripQuery where
  year : Nat
  month : Nat
  day : Option Nat
deriving DecidableEq, Inhabited

structure RawTripDayInMonth where
  tripDayInMonth : Option String
  tripCntDay : Option Int
deriving DecidableEq, Inhabited

/-- One entry of `day.tripList`; the vendor reports the numeric fields
as numbers. -/
structure RawTripEntry where
  tripTime : Option String
  tripDrvTime : Int
  tripIdleTime : Int
  tripAvgSpeed : Int
  tripMaxSpeed : Int
  tripDist : Int
deriving DecidableEq, Inhabited

structure RawDayTrip where
  tripDay : Option String
  dayTripCnt : Option Int
  tripDist : Option Int
  tripDrvTime : Option Int
  tripIdleTime : Option Int
  tripAvgSpeed : Option Int
  tripMaxSpeed : Option Int
  tripList : Option (List RawTripEntry)
deriving DecidableEq, Inhabited

structure RawTripMsg where
  tripDayList : Option (List RawTripDayInMonth)
  tripDrvTime : Option Int
  tripIdleTime : Option Int
  tripDist : Option Int
  tripAvgSpeed : Option Int
  tripMaxSpeed : Option Int
  dayTripList : Option (List RawDayTrip)
deriving DecidableEq, Inhabited

structure TripResponse where
  resMsg : Option RawTripMsg
deriving DecidableEq, Inhabited

structure TripSpeed where
  avg : Option Int
  max : Option Int
deriving DecidableEq, Inhabited

structure TripDurations where
  drive : Option Int
  idle : Option Int
deriving DecidableEq, Inhabited

structure TripMonthDay where
  dayRaw : Option String
  date : Option Int
  tripsCount : Option Int
deriving DecidableEq, Inhabited

structure TripMonth where
  days : List TripMonthDay
  durations : TripDurations
  distance : Option Int
  speed : TripSpeed
deriving DecidableEq, Inhabited

structure Trip where
  timeRaw : Option String
  start : Int
  «end» : Int
  durations : TripDurations
  speed : TripSpeed
  distance : Option Int
deriving DecidableEq, Inhabited

structure TripDay where
  dayRaw : Option String
  tripsCount : Option Int
  distance : Option Int
  durations : TripDurations
  speed : TripSpeed
  trips : List Trip
deriving DecidableEq, Inhabited

/-- The three result shapes of `tripInfo`: a `TripMonth`, a `TripDay`
array, or `undefined` (the bare `return;`). -/
inductive TripResult where
  | month (m : TripMonth)
  | days (l : List TripDay)
  | noResult
deriving DecidableEq, Inhabited

/-- The mapping of one `trip` of `day.tripList`:
`start = parseDate(dayStr + tripTime)`, `end = addMinutes(start,
tripDrvTime)`. -/
def tripOfRaw (dayStr : Option String) (t : RawTripEntry) : Trip :=
  let start := parseDate (jsTemplate dayStr ++ jsTemplate t.tripTime)
  { timeRaw := t.tripTime
    start := start
    «end» := addMinutes start t.tripDrvTime
    durations := { drive := some t.tripDrvTime, idle := some t.tripIdleTime }
    speed := { avg := some t.tripAvgSpeed, max := some t.tripMaxSpeed }
    distance := some t.tripDist }

/-- The mapping of one entry of `dayTripList`. -/
def tripDayOfRaw (d : RawDayTrip) : TripDay :=
  { dayRaw := d.tripDay
    tripsCount := d.dayTripCnt
    distance := d.tripDist
    durations := { drive := d.tripDrvTime, idle := d.tripIdleTime }
    speed := { avg := d.tripAvgSpeed, max := d.tripMaxSpeed }
    trips :=
      match d.tripList with
      | some lst => lst.map (tripOfRaw d.tripDay)
      | none => [] }

/-- The monthly-mode result object of `tripInfo` (built from
`response.body.resMsg` through optional chains, so it never throws). -/
def tripMonthOfResponse (msg : Option RawTripMsg) : TripMonth :=
  { days :=
      match msg.bind (·.tripDayList) with
      | some lst =>
        lst.map (fun day =>
          { dayRaw := day.tripDayInMonth
            date :=
              if jsTruthyStr day.tripDayInMonth then day.tripDayInMonth.map parseDate
              else none
            tripsCount := day.tripCntDay })
      | none => []
    durations := { drive := msg.bind (·.tripDrvTime), idle := msg.bind (·.tripIdleTime) }
    distance := msg.bind (·.tripDist)
    speed := { avg := msg.bind (·.tripAvgSpeed), max := msg.bind (·.tripMaxSpeed) } }

/-- `AustraliaVehicle.tripInfo`.  `perDay = Boolean(date.day)`;
in daily mode the source reads `response.body.resMsg.dayTripList`
without a guarding `?.`, so an absent `resMsg` throws a `TypeError`
there (monthly mode only uses optional chains). -/
def tripInfo (q : TripQuery) (resp : TripResponse) : Except JSError TripResult :=
  let perDay := jsTruthyNat q.day
  if perDay then
    match resp.resMsg with
    | none => Except.error JSError.typeError
    | some r =>
      match r.dayTripList with
      | some lst => Except.ok (TripResult.days (lst.map tripDayOfRaw))
      | none => Except.ok TripResult.noResult
  else
    Except.ok (TripResult.month (tripMonthOfResponse resp.resMsg))

/-! ## Path accessors used to state the claims -/

/-- The path `body.state?.Vehicle?.Chassis?.Axle` of a CCS2 payload. -/
def ccs2Axle (b : CCS2Body) : Option RawAxle :=
  ((b.state.bind (·.Vehicle)).bind (·.Chassis)).bind (·.Axle)

/-- The path `body.state?.Vehicle?.Cabin?.Door` of a CCS2 payload. -/
def ccs2Door (b : CCS2Body) : Option RawDoor :=
  ((b.state.bind (·.Vehicle)).bind (·.Cabin)).bind (·.Door)

/-- The path
`body.state?.Vehicle?.Cabin?.HVAC?.Row1?.Driver?.Blower?.SpeedLevel`
of a CCS2 payload. -/
def ccs2BlowerSpeed (b : CCS2Body) : Option Int :=
  ((((((b.state.bind (·.Vehicle)).bind (·.Cabin)).bind (·.HVAC)).bind (·.Row1)).bind
      (·.Driver)).bind (·.Blower)).bind (·.SpeedLevel)

/-! ## Concrete payloads used by witnesses and counterexamples -/

/-- A `drvDistance[0]` entry reporting `evModeRange 120` and
`gasModeRange 80` but no `totalAvailableRange`. -/
def exRangeEntry : RawDrvDistanceEntry :=
  { rangeByFuel := some
      { gasModeRange := some { value := some 80 }
        totalAvailableRange := none
        evModeRange := some { value := some 120 } } }

/-- A legacy payload with `rangeEV = 120`, `rangeGas = 80` and no
vendor-supplied total `range`. -/
def exRangeBody : LegacyBody :=
  { (default : LegacyBody) with
      evStatus := some { (default : RawEvStatus) with drvDistance := some [exRangeEntry] } }

/-- The legacy payload with every field absent. -/
def exEmptyLegacy : LegacyBody := default

/-- A legacy payload whose `evStatus` is present but whose
`evStatus.drvDistance` is absent. -/
def exEvNoDrvDistance : LegacyBody :=
  { (default : LegacyBody) with evStatus := some (default : RawEvStatus) }

/-- A legacy payload reporting the tri-state tire code `2` for the
rear-left wheel. -/
def exTire2 : LegacyBody :=
  { (default : LegacyBody) with
      tirePressureLamp := some
        { (default : RawTirePressureLamp) with tirePressureLampRL := some 2 } }

/-- A CCS2 door block with all four doors reporting lock code `1`. -/
def exDoorAllLocked : RawDoor :=
  { Row1 := some
      { Driver := some { Lock := some 1, Open := none }
        Passenger := some { Lock := some 1, Open := none } }
    Row2 := some
      { Left := some { Lock := some 1, Open := none }
        Right := some { Lock := some 1, Open := none } } }

/-- A CCS2 door block with the rear-right door reporting lock code `0`. -/
def exDoorOneUnlocked : RawDoor :=
  { Row1 := some
      { Driver := some { Lock := some 1, Open := none }
        Passenger := some { Lock := some 1, Open := none } }
    Row2 := some
      { Left := some { Lock := some 1, Open := none }
        Right := some { Lock := some 0, Open := none } } }

/-- A CCS2 vehicle state that passes the structural guard (axle and the
given door block present), with the cabin HVAC block absent. -/
def exVehicleState (door : RawDoor) : RawVehicleState :=
  { Body := none
    Cabin := some { Door := some door, HVAC := none, SteeringWheel := none }
    Chassis := some { Axle := some (default : RawAxle) }
    Drivetrain := none
    Electronics := none
    Green := none }

/-- A structurally complete CCS2 payload, all doors locked. -/
def exCCS2AllLocked : CCS2Body :=
  { state := some { Vehicle := some (exVehicleState exDoorAllLocked) }
    lastUpdateTime := none }

/-- A structurally complete CCS2 payload, one door unlocked. -/
def exCCS2OneUnlocked : CCS2Body :=
  { state := some { Vehicle := some (exVehicleState exDoorOneUnlocked) }
    lastUpdateTime := none }

/-- A CCS2 payload whose `state.Vehicle` substructure is absent. -/
def exNoVehicle : CCS2Body :=
  { state := some { Vehicle := none }, lastUpdateTime := none }

/-- A CCS2 payload whose `state.Vehicle.Chassis.Axle` substructure is
absent (door present). -/
def exNoAxle : CCS2Body :=
  { state := some
      { Vehicle := some
          { Body := none
            Cabin := some
              { Door := some exDoorAllLocked, HVAC := none, SteeringWheel := none }
            Chassis := some { Axle := none }
            Drivetrain := none
            Electronics := none
            Green := none } }
    lastUpdateTime := none }

/-- A CCS2 payload whose `state.Vehicle.Cabin.Door` substructure is
absent (axle present). -/
def exNoDoor : CCS2Body :=
  { state := some
      { Vehicle := some
          { Body := none
            Cabin := some { Door := none, HVAC := none, SteeringWheel := none }
            Chassis := some { Axle := some (default : RawAxle) }
            Drivetrain := none
            Electronics := none
            Green := none } }
    lastUpdateTime := none }

/-- Rate headers `{limit: 100, remaining: 42, reset: 1700000000}`. -/
def exRateHeaders : RateHeaders :=
  { xRatelimitLimit := some 100
    xRatelimitRemaining := some 42
    xRatelimitReset := some 1700000000 }

/-- Rate headers with no `x-ratelimit-limit` field. -/
def exNoLimitHeaders : RateHeaders :=
  { xRatelimitLimit := none
    xRatelimitRemaining := some 7
    xRatelimitReset := some 5 }

/-- One raw trip entry with a 15-minute drive duration. -/
def exTripEntry : RawTripEntry :=
  { tripTime := some "0930"
    tripDrvTime := 15
    tripIdleTime := 2
    tripAvgSpeed := 40
    tripMaxSpeed := 60
    tripDist := 10 }

/-- One raw `dayTripList` entry carrying `exTripEntry`. -/
def exDayTrip : RawDayTrip :=
  { tripDay := some "20240102"
    dayTripCnt := some 1
    tripDist := some 10
    tripDrvTime := some 15
    tripIdleTime := some 2
    tripAvgSpeed := some 40
    tripMaxSpeed := some 60
    tripList := some [exTripEntry] }

/-- A trip response carrying one day of daily trips. -/
def exTripResponse : TripResponse :=
  { resMsg := some { (default : RawTripMsg) with dayTripList := some [exDayTrip] } }

/-- A daily trip query (day component supplied). -/
def exDayQuery : TripQuery := { year := 2024, month := 1, day := some 2 }

/-- A monthly trip query (no day component). -/
def exMonthQuery : TripQuery := { year := 2024, month := 1, day := none }

/-! ## Helper lemmas -/

/-- When the legacy parser succeeds its result is the mapped object
literal. -/
theorem parseVehicleStatus_ok {b : LegacyBody} {s : VehicleStatus}
    (h : parseVehicleStatus b = Except.ok s) : s = legacyStatus b := by
  unfold parseVehicleStatus at h
  split at h
  · split at h
    · simp at h
    · simp only [Except.ok.injEq] at h
      exact h.symm
  · simp only [Except.ok.injEq] at h
    exact h.symm

/-- When the CCS2 parser succeeds, the payload contained the
`Vehicle`, `Axle` and `Door` substructures and the result is the mapped
object literal over them. -/
theorem parseCCS2VehicleStatus_ok {b : CCS2Body} {s : VehicleStatus}
    (h : parseCCS2VehicleStatus b = Except.ok s) :
    ∃ vehicleState axle door,
      b.state.bind (·.Vehicle) = some vehicleState ∧
      vehicleState.Chassis.bind (·.Axle) = some axle ∧
      vehicleState.Cabin.bind (·.Door) = some door ∧
      s = ccs2Status vehicleState axle door
        (vehicleState.Green.bind (·.ChargingInformation)) b.lastUpdateTime := by
  unfold parseCCS2VehicleStatus at h
  split at h
  · simp at h
  next vs hv =>
    split at h
    next axle door ha hd =>
      simp only [Except.ok.injEq] at h
      exact ⟨vs, axle, door, hv, ha, hd, h.symm⟩
    · simp at h
    · simp at h

/-! ## C1 — range post-processing in `status()` -/

/-- C1.  For every payload normalized by `status()` under either
protocol, after the protocol-specific mapping: the returned status is
the parsed status with the range post-processing applied; if the
canonical `engine.range` is falsy and at least one of
`engine.rangeEV` / `engine.rangeGas` is truthy, the returned
`engine.range` is their sum with absent values counted as `0`; and if
`engine.range` is present and non-zero it is returned unchanged. -/
theorem status_range_postprocessing (p : RawPayload) (s : VehicleStatus)
    (hp : parseStatus p = Except.ok s) :
    normalizeStatus p = Except.ok (postProcessRange s)
    ∧ (jsTruthyInt s.engine.range = false →
        (jsTruthyInt s.engine.rangeEV || jsTruthyInt s.engine.rangeGas) = true →
        (postProcessRange s).engine.range =
          some (s.engine.rangeEV.getD 0 + s.engine.rangeGas.getD 0))
    ∧ (∀ v : Int, s.engine.range = some v → v ≠ 0 →
        (postProcessRange s).engine.range = some v) := by
  refine ⟨?_, ?_, ?_⟩
  · unfold normalizeStatus
    rw [hp]
    rfl
  · intro h1 h2
    simp [postProcessRange, h1, h2]
  · intro v hv hvne
    simp [postProcessRange, hv, jsTruthyInt, hvne]

/-- C1 witness: a legacy payload with `rangeEV = 120`, `rangeGas = 80`
and no vendor `range` normalizes to `range = 200`. -/
theorem status_range_postprocessing_witness :
    (postProcessRange (legacyStatus exRangeBody)).engine.range = some 200 := by
  have h := (status_range_postprocessing (RawPayload.legacy exRangeBody)
      (legacyStatus exRangeBody) rfl).2.1 rfl rfl
  simpa using h

/-! ## C2 — CCS2 structural guard -/

/-- C2.  The CCS2 parser fails on a payload missing `Vehicle`, `Axle`
or `Door`; but a missing `state.Vehicle` is dereferenced
(`vehicleState.Chassis`) *before* the `!vehicleState` guard can run, so
it fails with an implicit `TypeError` rather than the explicit
malformed-payload error; missing `Axle` or `Door` (with `Vehicle`
present) fail with the malformed-payload error as specified. -/
theorem ccs2_missing_structure_errors :
    parseCCS2VehicleStatus exNoVehicle = Except.error JSError.typeError
    ∧ parseCCS2VehicleStatus exNoAxle = Except.error JSError.malformedPayload
    ∧ parseCCS2VehicleStatus exNoDoor = Except.error JSError.malformedPayload :=
  ⟨rfl, rfl, rfl⟩

/-! ## C3 — legacy parser totality -/

/-- C3.  The legacy parser does not degrade every missing field to a
default: on a payload whose `evStatus` is present but whose
`evStatus.drvDistance` is absent, `body.evStatus?.drvDistance[0]`
indexes `undefined` and throws a `TypeError`; on the all-fields-absent
payload it does succeed. -/
theorem legacy_drvDistance_crash :
    parseVehicleStatus exEvNoDrvDistance = Except.error JSError.typeError
    ∧ parseVehicleStatus exEmptyLegacy = Except.ok (legacyStatus exEmptyLegacy) :=
  ⟨rfl, rfl⟩

/-! ## C4 — rate tracker contract -/

/-- C4.  When the `x-ratelimit-limit` header is present, the state is
rebuilt from the headers: `max` from the limit, `current` from the
remaining header (`NaN`, modelled `none`, when absent), `reset` from the
Unix-seconds reset header times 1000 (the prior `reset` is kept when
that header is absent) and `updatedAt` set to now; when the limit header
is absent the prior state is returned untouched. -/
theorem updateRates_contract (st : RateState) (h : RateHeaders) (now : Int) :
    (∀ lim : Nat, h.xRatelimitLimit = some lim →
      updateRates now st h =
        { max := some (lim : Int)
          current := h.xRatelimitRemaining.map (fun n => (n : Int))
          reset :=
            match h.xRatelimitReset with
            | some r => some ((r : Int) * 1000)
            | none => st.reset
          updatedAt := some now })
    ∧ (h.xRatelimitLimit = none → updateRates now st h = st) := by
  constructor
  · intro lim hlim
    simp [updateRates, hlim]
  · intro hnone
    simp [updateRates, hnone]

/-- C4 witness: headers `{limit:100, remaining:42, reset:1700000000}`
produce `{max:100, current:42, reset:1700000000000 ms}` (the
millisecond epoch of 2023-11-14T22:13:20Z), and headers without a limit
field leave the prior state unchanged. -/
theorem updateRates_contract_witness :
    updateRates 7777 initialRateState exRateHeaders =
      { max := some 100, current := some 42, reset := some 1700000000000,
        updatedAt := some 7777 }
    ∧ updateRates 7777 initialRateState exNoLimitHeaders = initialRateState := by
  constructor
  · have h := (updateRates_contract initialRateState exRateHeaders 7777).1 100 rfl
    simpa [exRateHeaders] using h
  · exact (updateRates_contract initialRateState exNoLimitHeaders 7777).2 rfl

/-! ## C5 — charge-target validation -/

/-- C5.  If `fast` or `slow` is outside the allowed percentage set,
`setChargeTargets` raises the error listing the allowed set and issues
no outbound command; when both belong to the set it issues exactly one
POST carrying both targets. -/
theorem setChargeTargets_validation (fast slow : Nat) :
    ((POSSIBLE_CHARGE_LIMIT_VALUES.contains fast = false ∨
      POSSIBLE_CHARGE_LIMIT_VALUES.contains slow = false) →
      setChargeTargets fast slow = Except.error (ControlError.managed chargeLimitMessage))
    ∧ (POSSIBLE_CHARGE_LIMIT_VALUES.contains fast = true →
        POSSIBLE_CHARGE_LIMIT_VALUES.contains slow = true →
        setChargeTargets fast slow =
          Except.ok
            [{ targetSOClist :=
                [{ plugType := EVChargeModeTypes.FAST, targetSOClevel := fast },
                 { plugType := EVChargeModeTypes.SLOW, targetSOClevel := slow }] }])
    ∧ chargeLimitMessage = "Charge target values are limited to 50, 60, 70, 80, 90, 100" := by
  refine ⟨?_, ?_, by decide⟩
  · rintro (hf | hs)
    · unfold setChargeTargets
      rw [hf]
      simp
    · unfold setChargeTargets
      rw [hs]
      simp
  · intro hf hs
    unfold setChargeTargets
    rw [hf, hs]
    simp

/-- C5 witness: `(50, 90)` validates and sends both targets in one
POST; `(55, 90)` fails with the error listing the allowed set. -/
theorem setChargeTargets_validation_witness :
    setChargeTargets 50 90 =
      Except.ok
        [{ targetSOClist :=
            [{ plugType := EVChargeModeTypes.FAST, targetSOClevel := 50 },
             { plugType := EVChargeModeTypes.SLOW, targetSOClevel := 90 }] }]
    ∧ setChargeTargets 55 90 = Except.error (ControlError.managed chargeLimitMessage) := by
  constructor
  · exact (setChargeTargets_validation 50 90).2.1 (by decide) (by decide)
  · exact (setChargeTargets_validation 55 90).1 (Or.inl (by decide))

/-! ## C6 — trip query discrimination -/

/-- C6.  `tripInfo` selects its mode by the `day` component of the
query: with no day it returns the `TripMonth` built from the response
(which carries the `days` list and the aggregate `speed.avg`/`max`);
with a (non-zero, i.e. truthy) day it returns the array of `TripDay`
values when the vendor supplies `dayTripList`; and inside every mapped
day, each trip's `end` equals its `start` plus the vendor drive
duration in minutes. -/
theorem tripInfo_modes (q : TripQuery) (resp : TripResponse) :
    (q.day = none →
      tripInfo q resp = Except.ok (TripResult.month (tripMonthOfResponse resp.resMsg)))
    ∧ (∀ d : Nat, q.day = some d → d ≠ 0 →
        ∀ r, resp.resMsg = some r → ∀ lst, r.dayTripList = some lst →
          tripInfo q resp = Except.ok (TripResult.days (lst.map tripDayOfRaw)))
    ∧ (∀ day : RawDayTrip, ∀ t ∈ (tripDayOfRaw day).trips,
        ∃ m : Int, t.durations.drive = some m ∧ t.«end» = addMinutes t.start m) := by
  refine ⟨?_, ?_, ?_⟩
  · intro hnone
    simp [tripInfo, jsTruthyNat, hnone]
  · intro d hd hdz r hr lst hlst
    simp [tripInfo, jsTruthyNat, hd, hdz, hr, hlst]
  · intro day t ht
    unfold tripDayOfRaw at ht
    simp only at ht
    rcases hl : day.tripList with _ | lst
    · rw [hl] at ht
      simp at ht
    · rw [hl] at ht
      simp only [List.mem_map] at ht
      obtain ⟨raw, _, rfl⟩ := ht
      exact ⟨raw.tripDrvTime, rfl, rfl⟩

/-- C6 witness: a daily query returns the mapped `TripDay` array, a
monthly query returns the mapped `TripMonth`, and the single mapped
trip of the example day satisfies `end = start + 15 minutes`. -/
theorem tripInfo_modes_witness :
    tripInfo exDayQuery exTripResponse =
      Except.ok (TripResult.days [tripDayOfRaw exDayTrip])
    ∧ tripInfo exMonthQuery exTripResponse =
      Except.ok (TripResult.month (tripMonthOfResponse exTripResponse.resMsg))
    ∧ ∃ m : Int, (tripOfRaw exDayTrip.tripDay exTripEntry).durations.drive = some m ∧
        (tripOfRaw exDayTrip.tripDay exTripEntry).«end» =
          addMinutes (tripOfRaw exDayTrip.tripDay exTripEntry).start m := by
  refine ⟨?_, ?_, ?_⟩
  · have h := (tripInfo_modes exDayQuery exTripResponse).2.1 2 rfl (by decide)
      { (default : RawTripMsg) with dayTripList := some [exDayTrip] } rfl [exDayTrip] rfl
    simpa using h
  · exact (tripInfo_modes exMonthQuery exTripResponse).1 rfl
  · exact (tripInfo_modes exMonthQuery exTripResponse).2.2 exDayTrip
      (tripOfRaw exDayTrip.tripDay exTripEntry)
      (by rw [show (tripDayOfRaw exDayTrip).trips = [tripOfRaw exDayTrip.tripDay exTripEntry] from rfl]; exact List.mem_singleton.mpr rfl)

/-! ## C7 — tire-pressure-warning flag semantics -/

/-- C7 counterexample: in the legacy mapping the rear-left flag is a
truthiness coercion, so the tri-state vendor code `2` yields a `true`
warning flag (the claim predicts `false` for any code other than 1). -/
theorem tirePressure_truthiness_counterexample :
    exTire2.tirePressureLamp.bind (·.tirePressureLampRL) = some 2
    ∧ parseVehicleStatus exTire2 = Except.ok (legacyStatus exTire2)
    ∧ (legacyStatus exTire2).chassis.tirePressureWarningLamp.rearLeft = true :=
  ⟨rfl, rfl, rfl⟩

/-- C7 (amended).  In the CCS2 mapping every tire-pressure-warning flag
(four per-wheel flags and the aggregate) is an equality test of the
vendor code against the sentinel low code 1, so a code of 2 yields
false; in the legacy mapping the five flags are JavaScript truthiness
coercions (`!!`), so any non-zero code — including 2 — yields true. -/
theorem tirePressure_flag_semantics (cb : CCS2Body) (s : VehicleStatus)
    (hc : parseCCS2VehicleStatus cb = Except.ok s)
    (axle : RawAxle) (hax : ccs2Axle cb = some axle)
    (lb : LegacyBody) (s' : VehicleStatus)
    (hl : parseVehicleStatus lb = Except.ok s') :
    (s.chassis.tirePressureWarningLamp.rearLeft = true ↔
      ((axle.Row2.bind (·.Left)).bind (·.Tire)).bind (·.PressureLow) = some 1)
    ∧ (s.chassis.tirePressureWarningLamp.frontLeft = true ↔
      ((axle.Row1.bind (·.Left)).bind (·.Tire)).bind (·.PressureLow) = some 1)
    ∧ (s.chassis.tirePressureWarningLamp.frontRight = true ↔
      ((axle.Row1.bind (·.Right)).bind (·.Tire)).bind (·.PressureLow) = some 1)
    ∧ (s.chassis.tirePressureWarningLamp.rearRight = true ↔
      ((axle.Row2.bind (·.Right)).bind (·.Tire)).bind (·.PressureLow) = some 1)
    ∧ (s.chassis.tirePressureWarningLamp.all = true ↔
      axle.Tire.bind (·.PressureLow) = some 1)
    ∧ s'.chassis.tirePressureWarningLamp.rearLeft =
        jsTruthyInt (lb.tirePressureLamp.bind (·.tirePressureLampRL))
    ∧ s'.chassis.tirePressureWarningLamp.frontLeft =
        jsTruthyInt (lb.tirePressureLamp.bind (·.tirePressureLampFL))
    ∧ s'.chassis.tirePressureWarningLamp.frontRight =
        jsTruthyInt (lb.tirePressureLamp.bind (·.tirePressureLampFR))
    ∧ s'.chassis.tirePressureWarningLamp.rearRight =
        jsTruthyInt (lb.tirePressureLamp.bind (·.tirePressureLampRR))
    ∧ s'.chassis.tirePressureWarningLamp.all =
        jsTruthyInt (lb.tirePressureLamp.bind (·.tirePressureWarningLampAll)) := by
  obtain ⟨vs, axle', door, hv, ha, hd, rfl⟩ := parseCCS2VehicleStatus_ok hc
  obtain rfl := parseVehicleStatus_ok hl
  have hax2 : ccs2Axle cb = some axle' := by
    unfold ccs2Axle
    rw [hv]
    exact ha
  have heq : some axle' = some axle := hax2.symm.trans hax
  injection heq with heq
  subst heq
  refine ⟨?_, ?_, ?_, ?_, ?_, rfl, rfl, rfl, rfl, rfl⟩ <;>
    simp [ccs2Status, ccs2Chassis]

/-- C7 witness: the amended theorem applied to the concrete CCS2
payload (no tire data, so the aggregate flag is false) and to the
legacy payload carrying the tri-state code 2 (flag is its truthiness,
i.e. true). -/
theorem tirePressure_flag_semantics_witness :
    ((ccs2Status (exVehicleState exDoorAllLocked) (default : RawAxle) exDoorAllLocked
        none none).chassis.tirePressureWarningLamp.all = true ↔
      (default : RawAxle).Tire.bind (·.PressureLow) = some 1)
    ∧ (legacyStatus exTire2).chassis.tirePressureWarningLamp.rearLeft =
        jsTruthyInt (exTire2.tirePressureLamp.bind (·.tirePressureLampRL)) := by
  have h := tirePressure_flag_semantics exCCS2AllLocked
      (ccs2Status (exVehicleState exDoorAllLocked) (default : RawAxle) exDoorAllLocked
        none none)
      rfl (default : RawAxle) rfl exTire2 (legacyStatus exTire2) rfl
  exact ⟨h.2.2.2.2.1, h.2.2.2.2.2.1⟩

/-! ## C8 — CCS2 lock aggregation -/

/-- C8.  For every CCS2 payload passing the structural check,
`chassis.locked` is true iff all four door-lock sub-fields equal the
locked code 1; if any one of them is not 1 the vehicle is reported
unlocked. -/
theorem ccs2_locked_iff_all_doors (cb : CCS2Body) (s : VehicleStatus)
    (hc : parseCCS2VehicleStatus cb = Except.ok s)
    (door : RawDoor) (hd : ccs2Door cb = some door) :
    (s.chassis.locked = some true ↔
      ((door.Row1.bind (·.Driver)).bind (·.Lock) = some 1 ∧
       (door.Row1.bind (·.Passenger)).bind (·.Lock) = some 1 ∧
       (door.Row2.bind (·.Left)).bind (·.Lock) = some 1 ∧
       (door.Row2.bind (·.Right)).bind (·.Lock) = some 1))
    ∧ (((door.Row1.bind (·.Driver)).bind (·.Lock) ≠ some 1 ∨
        (door.Row1.bind (·.Passenger)).bind (·.Lock) ≠ some 1 ∨
        (door.Row2.bind (·.Left)).bind (·.Lock) ≠ some 1 ∨
        (door.Row2.bind (·.Right)).bind (·.Lock) ≠ some 1) →
        s.chassis.locked = some false) := by
  obtain ⟨vs, axle, door', hv, ha, hdd, rfl⟩ := parseCCS2VehicleStatus_ok hc
  have hd2 : ccs2Door cb = some door' := by
    unfold ccs2Door
    rw [hv]
    exact hdd
  have heq : some door' = some door := hd2.symm.trans hd
  injection heq with heq
  subst heq
  constructor
  · simp [ccs2Status, ccs2Chassis, and_assoc]
  · rintro (hne | hne | hne | hne) <;> simp [ccs2Status, ccs2Chassis, hne]

/-- C8 witness: all four doors locked reports `locked = true`; one
unlocked door reports `locked = false`. -/
theorem ccs2_locked_iff_all_doors_witness :
    (ccs2Status (exVehicleState exDoorAllLocked) (default : RawAxle) exDoorAllLocked
      none none).chassis.locked = some true
    ∧ (ccs2Status (exVehicleState exDoorOneUnlocked) (default : RawAxle) exDoorOneUnlocked
      none none).chassis.locked = some false := by
  constructor
  · exact (ccs2_locked_iff_all_doors exCCS2AllLocked _ rfl exDoorAllLocked rfl).1.mpr
      ⟨rfl, rfl, rfl, rfl⟩
  · exact (ccs2_locked_iff_all_doors exCCS2OneUnlocked _ rfl exDoorOneUnlocked rfl).2
      (Or.inr (Or.inr (Or.inr (by decide))))

/-! ## C9 — temperature code round trip -/

/-- C9.  For every supported region and every Celsius value in the
region temperature table's domain, decoding the encoded value gives the
value back, and the table is duplicate-free (bijective within its
domain). -/
theorem temp_code_roundtrip (r : REGIONS) (c : Int) (h : c ∈ regionTempTable r) :
    tempCodeToCelsius r (celciusToTempCode r c) = some c
    ∧ (regionTempTable r).Nodup := by
  constructor
  · cases r
    have h' : c ∈ [(14 : Int), 15, 16, 17, 18, 19, 20, 21, 22, 23, 24, 25, 26, 27, 28, 29, 30] := h
    fin_cases h' <;> decide
  · cases r
    decide

/-- C9 witness: 20 °C is in the AU table and round-trips. -/
theorem temp_code_roundtrip_witness :
    tempCodeToCelsius REGIONS.AU (celciusToTempCode REGIONS.AU 20) = some 20
    ∧ (regionTempTable REGIONS.AU).Nodup :=
  temp_code_roundtrip REGIONS.AU 20 (by decide)

/-! ## C10 — absent blower speed reported as climate active -/

/-- C10.  In the CCS2 mapping, when the driver blower speed field is
absent, `climate.active` is reported `true`: the flag is computed as
`SpeedLevel !== 0` and `undefined` is not strictly equal to 0. -/
theorem ccs2_absent_blower_active (cb : CCS2Body) (s : VehicleStatus)
    (hc : parseCCS2VehicleStatus cb = Except.ok s)
    (hb : ccs2BlowerSpeed cb = none) :
    s.climate.active = some true := by
  obtain ⟨vs, axle, door, hv, ha, hd, rfl⟩ := parseCCS2VehicleStatus_ok hc
  have hbv : ((((vs.Cabin.bind (·.HVAC)).bind (·.Row1)).bind (·.Driver)).bind
      (·.Blower)).bind (·.SpeedLevel) = none := by
    unfold ccs2BlowerSpeed at hb
    rw [hv] at hb
    exact hb
  simp [ccs2Status, ccs2Climate, hbv]

/-- C10 witness: the example CCS2 payload has no HVAC block, and its
normalized `climate.active` is `true`. -/
theorem ccs2_absent_blower_active_witness :
    (ccs2Status (exVehicleState exDoorAllLocked) (default : RawAxle) exDoorAllLocked
      none none).climate.active = some true :=
  ccs2_absent_blower_active exCCS2AllLocked _ rfl rfl

end Bluelinky
